import Mathlib

/-!
# Verification of the `louisgoodnews/Logger` console-logging library

This file gives a shallow embedding of the repository's Python sources and
proves the specified properties about them.

The repository contains two Logger implementations:

* `src/src/Logger/core/core.py` — the packaged implementation: a `Level`
  enumeration with numeric values, a `LevelColor` enumeration with ANSI codes,
  and a `Logger` class whose `log` method filters by level unless `override`
  is set, and whose per-level convenience methods always pass
  `override=True`.  This is embedded below in the root namespace.
* `src/src/core/logger.py` — a legacy variant whose `log` never filters and
  whose line format differs.  Embedded in namespace `V2`.

Modelling conventions:

* Python values that only ever appear rendered into messages (positional
  `*args`, keyword `**kwargs`, function arguments and results) are carried
  as the strings their `repr`/`str` would produce.
* `print` is modelled by returning the emitted lines; each emitted line is a
  `LogLine` recording the level it was emitted at, the message passed to
  `log`, and the full formatted text that is printed.
* `datetime.now()` (local time, used at second resolution via
  `strftime("%Y-%m-%d %H:%M:%S")`) is modelled by passing the current
  `DateTime` as an explicit argument.
* A Python statement that raises is modelled with `Except String`; the error
  string names the exception.
-/

/-- Embedding of the `Level` enum of `src/src/Logger/core/core.py`
(lines 17-50): the six logging levels. -/
inductive Level where
  | SILENT
  | DEBUG
  | INFO
  | WARNING
  | ERROR
  | CRITICAL
deriving DecidableEq, Repr

/-- The numeric value of each member of the `Level` enum
(`SILENT = 0`, `DEBUG = 10`, ..., `CRITICAL = 50`). -/
def Level.value : Level → Nat
  | .SILENT => 0
  | .DEBUG => 10
  | .INFO => 20
  | .WARNING => 30
  | .ERROR => 40
  | .CRITICAL => 50

/-- `Level.__str__` / `level.name` in Python: the member's name. -/
def Level.lvlName : Level → String
  | .SILENT => "SILENT"
  | .DEBUG => "DEBUG"
  | .INFO => "INFO"
  | .WARNING => "WARNING"
  | .ERROR => "ERROR"
  | .CRITICAL => "CRITICAL"

/-- The ANSI reset code `"\033[0m"` that terminates every printed line. -/
def ansiReset : String := "\x1b[0m"

/-- Embedding of the `LevelColor` enum of `src/src/Logger/core/core.py`
(lines 53-87): the ANSI color code associated with each level. -/
def LevelColor.value : Level → String
  | .SILENT => "\x1b[0m"
  | .DEBUG => "\x1b[94m"
  | .INFO => "\x1b[92m"
  | .WARNING => "\x1b[93m"
  | .ERROR => "\x1b[91m"
  | .CRITICAL => "\x1b[95m"

/-- A Python `dict[str, str]` as an association list (keys unique per the
dict operations used below). -/
abbrev PyDict := List (String × String)

/-- `d.get(k, default)` on a Python dict. -/
def dictGet (d : PyDict) (k : String) (default : String) : String :=
  match d.find? (fun p => p.1 == k) with
  | some p => p.2
  | none => default

/-- `d[k] = v` on a Python dict: overwrite in place or append. -/
def dictSet (d : PyDict) (k v : String) : PyDict :=
  if d.any (fun p => p.1 == k) then
    d.map (fun p => if p.1 == k then (k, v) else p)
  else
    d ++ [(k, v)]

/-- `d.update(other)` on a Python dict. -/
def dictUpdate (d : PyDict) : PyDict → PyDict
  | [] => d
  | (k, v) :: rest => dictUpdate (dictSet d k v) rest

/-- A `datetime` value at second resolution, as observed through
`strftime("%Y-%m-%d %H:%M:%S")`.  `datetime.now()` (local time) is modelled
by passing a value of this type to the operations that read the clock. -/
structure DateTime where
  year : Nat
  month : Nat
  day : Nat
  hour : Nat
  minute : Nat
  second : Nat
deriving DecidableEq, Repr

/-- Zero-padding to two digits, as `%m`, `%d`, `%H`, `%M`, `%S` do. -/
def pad2 (n : Nat) : String :=
  if n < 10 then "0" ++ toString n else toString n

/-- Zero-padding to four digits, as `%Y` does. -/
def pad4 (n : Nat) : String :=
  if n < 10 then "000" ++ toString n
  else if n < 100 then "00" ++ toString n
  else if n < 1000 then "0" ++ toString n
  else toString n

/-- `dt.strftime("%Y-%m-%d %H:%M:%S")`: the timestamp text used in every
log line, at second resolution. -/
def DateTime.strftime (dt : DateTime) : String :=
  pad4 dt.year ++ "-" ++ pad2 dt.month ++ "-" ++ pad2 dt.day ++ " " ++
    pad2 dt.hour ++ ":" ++ pad2 dt.minute ++ ":" ++ pad2 dt.second

/-- Python `repr` of a tuple whose elements' reprs are the given strings. -/
def pyTupleRepr : List String → String
  | [x] => "(" ++ x ++ ",)"
  | xs => "(" ++ String.intercalate ", " xs ++ ")"

/-- Python `repr` of a kwargs dict whose keys' and values' reprs are the
given strings. -/
def pyDictRepr (kwargs : PyDict) : String :=
  "\x7b" ++ String.intercalate ", " (kwargs.map (fun p => p.1 ++ ": " ++ p.2)) ++ "\x7d"

/-- The `{args if args else ""}` fragment of the log f-string. -/
def renderArgs (args : List String) : String :=
  if args.isEmpty then "" else pyTupleRepr args

/-- The `{kwargs if kwargs else ""}` fragment of the log f-string. -/
def renderKwargs (kwargs : PyDict) : String :=
  if kwargs.isEmpty then "" else pyDictRepr kwargs

/-- One line printed to standard output by `Logger.log`: the level it was
emitted at, the message passed to `log`, and the full formatted text. -/
structure LogLine where
  lvl : Level
  msg : String
  text : String
deriving DecidableEq, Repr

/-- Embedding of the `Logger` class of `src/src/Logger/core/core.py`: its
`__init__` stores `_colorization` (an initially empty dict), `_level` and
`_name` (lines 102-127). -/
structure Logger where
  colorization : PyDict
  level : Level
  name : String
deriving DecidableEq, Repr

/-- `Logger.__init__(name, level)` / the `get_logger` classmethod
(lines 102-127 and 187-209): the colorization dict starts empty. -/
def Logger.get_logger (name : String) (level : Level) : Logger :=
  { colorization := [], level := level, name := name }

/-- The color chosen for a line:
`self.colorization.get(level.name, LevelColor[level.__str__()].value)`
(line 323). -/
def Logger.colorFor (lg : Logger) (lvl : Level) : String :=
  dictGet lg.colorization lvl.lvlName (LevelColor.value lvl)

/-- The full text of the f-string printed by `Logger.log` (lines 321-324):
`f"{color}[{now}] [{self.name}] [{level.name}]: {message} {args...} {kwargs...}\033[0m"`. -/
def Logger.logText (lg : Logger) (now : DateTime) (lvl : Level) (message : String)
    (args : List String) (kwargs : PyDict) : String :=
  lg.colorFor lvl ++ "[" ++ now.strftime ++ "] [" ++ lg.name ++ "] [" ++
    lvl.lvlName ++ "]: " ++ message ++ " " ++ renderArgs args ++ " " ++
    renderKwargs kwargs ++ ansiReset

/-- Embedding of `Logger.log(message, override=False, level=Level.SILENT,
*args, **kwargs)` (lines 292-324).  If `override` is false and
`level.value < self.level.value`, it returns without doing anything;
otherwise it prints one formatted line.  The method never assigns to any
attribute, so the returned logger is the receiver. -/
def Logger.log (lg : Logger) (message : String) (override : Bool) (lvl : Level)
    (args : List String) (kwargs : PyDict) (now : DateTime) :
    Logger × List LogLine :=
  if !override && lvl.value < lg.level.value then
    (lg, [])
  else
    (lg, [{ lvl := lvl, msg := message, text := lg.logText now lvl message args kwargs }])

/-- `Logger.silent` (lines 326-351): `self.log(level=Level.SILENT,
message=message, override=True, **kwargs)` (forwarded positional `*args`
are modelled empty, matching the calls that occur in the repository). -/
def Logger.silent (lg : Logger) (message : String) (kwargs : PyDict)
    (now : DateTime) : Logger × List LogLine :=
  lg.log message true Level.SILENT [] kwargs now

/-- `Logger.debug` (lines 353-378): logs at DEBUG with `override=True`. -/
def Logger.debug (lg : Logger) (message : String) (kwargs : PyDict)
    (now : DateTime) : Logger × List LogLine :=
  lg.log message true Level.DEBUG [] kwargs now

/-- `Logger.info` (lines 380-405): logs at INFO with `override=True`. -/
def Logger.info (lg : Logger) (message : String) (kwargs : PyDict)
    (now : DateTime) : Logger × List LogLine :=
  lg.log message true Level.INFO [] kwargs now

/-- `Logger.warning` (lines 407-432): logs at WARNING with `override=True`. -/
def Logger.warning (lg : Logger) (message : String) (kwargs : PyDict)
    (now : DateTime) : Logger × List LogLine :=
  lg.log message true Level.WARNING [] kwargs now

/-- `Logger.error` (lines 434-459): logs at ERROR with `override=True`. -/
def Logger.error (lg : Logger) (message : String) (kwargs : PyDict)
    (now : DateTime) : Logger × List LogLine :=
  lg.log message true Level.ERROR [] kwargs now

/-- `Logger.critical` (lines 461-486): logs at CRITICAL with `override=True`. -/
def Logger.critical (lg : Logger) (message : String) (kwargs : PyDict)
    (now : DateTime) : Logger × List LogLine :=
  lg.log message true Level.CRITICAL [] kwargs now

/-- Embedding of `Logger.execute(function, *args, **kwargs)`
(lines 488-539).  The outcome of calling `function(*args, **kwargs)` is
passed in as `outcome` (`.ok` a result, `.error` the exception text);
`render` is Python `str` on results, `fname` is `function.__name__`,
`argsRepr`/`kwargsRepr` the reprs of the argument tuple and dict, and
`durationStr` the `f"{duration:.2f}"` text.  On success four INFO messages
are logged and the result returned; on failure the exception is caught, one
ERROR message is logged and `None` is returned. -/
def Logger.execute {α : Type} (lg : Logger) (fname : String)
    (outcome : Except String α) (render : α → String)
    (argsRepr kwargsRepr : String) (now : DateTime) (durationStr : String) :
    Option α × List LogLine :=
  match outcome with
  | Except.ok result =>
    (some result,
      (lg.info ("Executing " ++ fname ++ " with args: " ++ argsRepr ++
        ", kwargs: " ++ kwargsRepr) [] now).2 ++
      (lg.info (fname ++ " executed successfully.") [] now).2 ++
      (lg.info ("Execution time: " ++ durationStr ++ " seconds") [] now).2 ++
      (lg.info ("Result: " ++ render result) [] now).2)
  | Except.error e =>
    (none,
      (lg.info ("Executing " ++ fname ++ " with args: " ++ argsRepr ++
        ", kwargs: " ++ kwargsRepr) [] now).2 ++
      (lg.error ("Error executing " ++ fname ++ ": " ++ e) [] now).2)

/-- Embedding of `Logger.exception(exception, message, log_traceback=True)`
(lines 541-574).  After optionally appending the traceback text to the
message, the method executes
`self.log(level=Level.ERROR, message=message, *args, **kwargs)` — but the
names `args` and `kwargs` are bound nowhere in the method or module, so
CPython raises `NameError` while evaluating the call, on every invocation,
and nothing is printed.  `excClassName` is `exception.__class__.__name__`
and `tracebackText` is `traceback.format_exc()`. -/
def Logger.exception (_lg : Logger) (excClassName : String) (message : String)
    (log_traceback : Bool) (tracebackText : String) :
    Except String (Logger × List LogLine) :=
  let _message :=
    if log_traceback then
      message ++ "\n Traceback for " ++ excClassName ++ ":\n\n" ++ tracebackText
    else
      message
  Except.error "NameError: name \x27args\x27 is not defined"

/-- A Python value, as far as the dunder methods below observe one. -/
inductive PyValue where
  | logger (lg : Logger)
  | pyInt (n : Int)
  | pyStr (s : String)
  | pyLevel (lvl : Level)
  | pyDict (d : PyDict)
  | pyNone
deriving DecidableEq

/-- Embedding of `Logger.__eq__` (lines 228-248): `False` unless the other
value is a `Logger`, else `self.name == other.name and
self.level == other.level`. -/
def Logger.eqPy (lg : Logger) (other : PyValue) : Bool :=
  match other with
  | PyValue.logger o => lg.name == o.name && lg.level == o.level
  | _ => false

/-- Embedding of `Logger.__getitem__` (lines 250-268):
`self.__dict__.get(key, None)`.  The instance dict holds exactly the
attributes assigned in `__init__`: `_colorization`, `_level` and `_name`. -/
def Logger.getitem (lg : Logger) (key : String) : Option PyValue :=
  if key == "_colorization" then some (PyValue.pyDict lg.colorization)
  else if key == "_level" then some (PyValue.pyLevel lg.level)
  else if key == "_name" then some (PyValue.pyStr lg.name)
  else none

/-- Number of positional parameters a call may bind, against the number it
passes: binding succeeds iff no positional argument is left over. -/
def callAccepts (nPositionalParams nGiven : Nat) : Bool :=
  decide (nGiven ≤ nPositionalParams)

/-- Embedding of the property assignment `logger.colorization = value`
(setter at lines 144-161).  The setter's parameter list after `self` is
only the keyword-variadic `**kwargs`, i.e. zero positional parameters, while
a property assignment always passes the assigned value as one positional
argument; CPython therefore raises `TypeError` before the setter body
(`self.colorization.update(kwargs)`) can run. -/
def Logger.colorizationAssign (lg : Logger) (value : PyDict) :
    Logger × Except String Unit :=
  if callAccepts 0 1 then
    ({ lg with colorization := dictUpdate lg.colorization value }, Except.ok ())
  else
    (lg, Except.error
      "TypeError: colorization() takes 1 positional argument but 2 were given")

/-- Embedding of the attribute assignment `logger.name = value` on the
packaged Logger: `name` is declared only as a read-only property
(lines 175-185), no setter exists, so CPython raises `AttributeError` and
the instance is untouched. -/
def Logger.setNameAttr (lg : Logger) (_value : String) :
    Logger × Except String Unit :=
  (lg, Except.error
    "AttributeError: property \x27name\x27 of \x27Logger\x27 object has no setter")

namespace V2

/-- Embedding of the legacy `Logger` class of `src/src/core/logger.py`
(lines 19-32): fields `_level` and `_name`. -/
structure Logger where
  level : Level
  name : String
deriving DecidableEq, Repr

/-- The `colourisation` dict of `Logger._colourise_` (lines 147-155). -/
def colourisationTable (key : String) : Option String :=
  if key == "RESET" then some "\x1b[0m"
  else if key == "DEBUG" then some "\x1b[90m"
  else if key == "INFO" then some "\x1b[94m"
  else if key == "WARNING" then some "\x1b[93m"
  else if key == "ERROR" then some "\x1b[91m"
  else if key == "CRITICAL" then some "\x1b[91m"
  else if key == "SILENT" then some "\x1b[0m"
  else none

/-- `Logger._colourise_(level, message)` (lines 132-157):
`f"{colourisation[level.value]}{message}{colourisation['RESET']}"`.
The `Level` this variant imports (`from level import Level`) is not under
`src/`; modelled from the spec: its members carry their own names as
`value`, matching the string keys of the `colourisation` dict, so the
lookup is by the level's name. -/
def Logger.colourise (_lg : Logger) (lvl : Level) (message : String) : String :=
  (colourisationTable lvl.lvlName).getD "" ++ message ++ (colourisationTable "RESET").getD ""

/-- Embedding of the legacy `Logger.log(message, level=Level.INFO, **kwargs)`
(lines 268-285): it unconditionally prints
`f"[{now}] [{self.name}] {self._colourise_(level, message)}"` — no
filtering, no level field in the line, and the color wraps only the
message. -/
def Logger.log (lg : Logger) (message : String) (lvl : Level)
    (now : DateTime) : List LogLine :=
  [{ lvl := lvl, msg := message,
     text := "[" ++ now.strftime ++ "] [" ++ lg.name ++ "] " ++ lg.colourise lvl message }]

/-- `Logger.critical` of the legacy variant (lines 159-175). -/
def Logger.critical (lg : Logger) (message : String) (now : DateTime) :
    List LogLine :=
  lg.log message Level.CRITICAL now

/-- Embedding of the legacy `name` setter (lines 82-105): it logs a
CRITICAL message and then raises `AttributeError`; `_name` is never
assigned, so the instance keeps its original name. -/
def Logger.setName (lg : Logger) (_value : String) (now : DateTime) :
    Logger × List LogLine × Except String Unit :=
  (lg,
   lg.critical "Cannot set attribute \x27name\x27 in \x27Logger\x27." now,
   Except.error "AttributeError: Attribute \x27name\x27 of \x27Logger\x27 is immutable.")

end V2

/-! ## Substring containment, for stating "the line contains ..." -/

/-- `sub` occurs contiguously inside `s`. -/
def strContains (s sub : String) : Prop := ∃ a b, s = a ++ sub ++ b

lemma strContains_refl (s : String) : strContains s s :=
  ⟨"", "", by simp⟩

lemma strContains_append_left (s t sub : String) (h : strContains t sub) :
    strContains (s ++ t) sub := by
  obtain ⟨a, b, rfl⟩ := h
  exact ⟨s ++ a, b, by simp [String.append_assoc]⟩

lemma strContains_append_right (s t sub : String) (h : strContains s sub) :
    strContains (s ++ t) sub := by
  obtain ⟨a, b, rfl⟩ := h
  exact ⟨a, b ++ t, by simp [String.append_assoc]⟩

lemma strContains_infix (s sub : String) (h : strContains s sub) :
    sub.data <:+: s.data := by
  obtain ⟨a, b, rfl⟩ := h
  exact ⟨a.data, b.data, by simp⟩

/-- Containment propagates into the formatted line: the message sits in the
middle of `logText`. -/
lemma strContains_logText (lg : Logger) (now : DateTime) (lvl : Level)
    (msg sub : String) (args : List String) (kwargs : PyDict)
    (h : strContains msg sub) :
    strContains (lg.logText now lvl msg args kwargs) sub := by
  unfold Logger.logText
  apply strContains_append_right
  apply strContains_append_right
  apply strContains_append_right
  apply strContains_append_right
  apply strContains_append_right
  exact strContains_append_left _ _ _ h

/-! ## Claims -/

/-- Claim C1: for every Logger with minimum level `M` and every severity `X`,
`log(message, level=X, override=False)` produces exactly one output line iff
`X.value >= M.value`; when `X.value < M.value` it produces no output and
leaves the Logger's state unchanged. -/
theorem log_respects_minimum_level (lg : Logger) (m : String) (lvl : Level)
    (args : List String) (kwargs : PyDict) (now : DateTime) :
    ((lg.log m false lvl args kwargs now).2.length = 1 ↔ lg.level.value ≤ lvl.value)
    ∧ (lvl.value < lg.level.value →
        (lg.log m false lvl args kwargs now).2 = []
        ∧ (lg.log m false lvl args kwargs now).1 = lg) := by
  by_cases h : lvl.value < lg.level.value <;> (simp [Logger.log, h]; try omega)

/-- Claim C1 witness: a Logger at minimum level INFO suppresses a DEBUG
message logged with `override=False` and is left unchanged. -/
theorem log_respects_minimum_level_witness :
    (((Logger.get_logger "Demo" Level.INFO).log "hi" false Level.DEBUG [] []
        ⟨2025, 7, 8, 12, 0, 0⟩).2.length = 1
      ↔ (Logger.get_logger "Demo" Level.INFO).level.value ≤ Level.DEBUG.value)
    ∧ (Level.DEBUG.value < (Logger.get_logger "Demo" Level.INFO).level.value →
        ((Logger.get_logger "Demo" Level.INFO).log "hi" false Level.DEBUG [] []
          ⟨2025, 7, 8, 12, 0, 0⟩).2 = []
        ∧ ((Logger.get_logger "Demo" Level.INFO).log "hi" false Level.DEBUG [] []
          ⟨2025, 7, 8, 12, 0, 0⟩).1 = Logger.get_logger "Demo" Level.INFO) :=
  log_respects_minimum_level (Logger.get_logger "Demo" Level.INFO) "hi"
    Level.DEBUG [] [] ⟨2025, 7, 8, 12, 0, 0⟩

/-- Claim C2: `log` with `override=True` always produces output, and every
per-level convenience method calls `log` with its fixed level and
`override=True`, so each always produces exactly one line no matter what the
Logger's minimum level is; the legacy variant's `log` likewise always
prints. -/
theorem convenience_methods_always_print (lg : Logger) (m : String)
    (kwargs : PyDict) (now : DateTime) (lvl : Level) (lg2 : V2.Logger) :
    (lg.log m true lvl [] kwargs now).2.length = 1
    ∧ lg.silent m kwargs now = lg.log m true Level.SILENT [] kwargs now
    ∧ lg.debug m kwargs now = lg.log m true Level.DEBUG [] kwargs now
    ∧ lg.info m kwargs now = lg.log m true Level.INFO [] kwargs now
    ∧ lg.warning m kwargs now = lg.log m true Level.WARNING [] kwargs now
    ∧ lg.error m kwargs now = lg.log m true Level.ERROR [] kwargs now
    ∧ lg.critical m kwargs now = lg.log m true Level.CRITICAL [] kwargs now
    ∧ (lg.silent m kwargs now).2.length = 1
    ∧ (lg.debug m kwargs now).2.length = 1
    ∧ (lg.info m kwargs now).2.length = 1
    ∧ (lg.warning m kwargs now).2.length = 1
    ∧ (lg.error m kwargs now).2.length = 1
    ∧ (lg.critical m kwargs now).2.length = 1
    ∧ (V2.Logger.log lg2 m lvl now).length = 1 := by
  refine ⟨?_, rfl, rfl, rfl, rfl, rfl, rfl, ?_, ?_, ?_, ?_, ?_, ?_, rfl⟩
  all_goals simp [Logger.log, Logger.silent, Logger.debug, Logger.info,
    Logger.warning, Logger.error, Logger.critical]

/-- Claim C3 (code bug): the spec says `exception(exception, message,
logTraceback)` logs one ERROR-level message and completes without raising;
the code instead passes the unbound names `*args, **kwargs` to `self.log`,
so every call raises `NameError` — with `log_traceback` both false and
true. -/
theorem exception_always_raises (lg : Logger) (excClassName m tb : String)
    (b : Bool) :
    lg.exception excClassName m b tb
      = Except.error "NameError: name \x27args\x27 is not defined" := rfl

/-- Claim C4: when the wrapped callable raises, `execute` catches the
failure, returns `None`, and among its output there is exactly one
ERROR-level line, which contains the callable's identifier and the failure
text. -/
theorem execute_failure_is_caught (lg : Logger)
    (fname e argsRepr kwargsRepr durationStr : String) (now : DateTime) :
    (Logger.execute lg fname (Except.error e : Except String String) id
      argsRepr kwargsRepr now durationStr).1 = none
    ∧ ((Logger.execute lg fname (Except.error e : Except String String) id
        argsRepr kwargsRepr now durationStr).2.filter
        (fun x => x.lvl == Level.ERROR)).length = 1
    ∧ ∀ x ∈ (Logger.execute lg fname (Except.error e : Except String String) id
        argsRepr kwargsRepr now durationStr).2.filter
        (fun x => x.lvl == Level.ERROR),
        strContains x.text fname ∧ strContains x.text e := by
  refine ⟨rfl, ?_, ?_⟩
  · simp [Logger.execute, Logger.info, Logger.error, Logger.log]
  · intro x hx
    simp [Logger.execute, Logger.info, Logger.error, Logger.log] at hx
    subst hx
    constructor
    · exact strContains_logText _ _ _ _ _ _ _
        (strContains_append_right _ _ _ (strContains_append_right _ _ _
          (strContains_append_left _ _ _ (strContains_refl fname))))
    · exact strContains_logText _ _ _ _ _ _ _
        (strContains_append_left _ _ _ (strContains_refl e))

/-- Claim C4 witness: a failing callable `f` raising `boom` yields `None`
and exactly one ERROR line containing `f` and `boom`. -/
theorem execute_failure_is_caught_witness :
    (Logger.execute (Logger.get_logger "Demo" Level.INFO) "f"
      (Except.error "boom" : Except String String) id "(1, 2)" "\x7b\x7d"
      ⟨2025, 7, 8, 12, 0, 0⟩ "0.00").1 = none
    ∧ ((Logger.execute (Logger.get_logger "Demo" Level.INFO) "f"
        (Except.error "boom" : Except String String) id "(1, 2)" "\x7b\x7d"
        ⟨2025, 7, 8, 12, 0, 0⟩ "0.00").2.filter
        (fun x => x.lvl == Level.ERROR)).length = 1
    ∧ ∀ x ∈ (Logger.execute (Logger.get_logger "Demo" Level.INFO) "f"
        (Except.error "boom" : Except String String) id "(1, 2)" "\x7b\x7d"
        ⟨2025, 7, 8, 12, 0, 0⟩ "0.00").2.filter
        (fun x => x.lvl == Level.ERROR),
        strContains x.text "f" ∧ strContains x.text "boom" :=
  execute_failure_is_caught (Logger.get_logger "Demo" Level.INFO) "f" "boom"
    "(1, 2)" "\x7b\x7d" "0.00" ⟨2025, 7, 8, 12, 0, 0⟩

/-- Claim C5: when the wrapped callable returns normally, `execute` returns
its result unchanged and emits at least three INFO-level lines (it emits
four: start, success, duration and result). -/
theorem execute_success_wraps (lg : Logger)
    (fname r argsRepr kwargsRepr durationStr : String) (now : DateTime) :
    (Logger.execute lg fname (Except.ok r : Except String String) id
      argsRepr kwargsRepr now durationStr).1 = some r
    ∧ ((Logger.execute lg fname (Except.ok r : Except String String) id
        argsRepr kwargsRepr now durationStr).2.filter
        (fun x => x.lvl == Level.INFO)).length = 4
    ∧ 3 ≤ ((Logger.execute lg fname (Except.ok r : Except String String) id
        argsRepr kwargsRepr now durationStr).2.filter
        (fun x => x.lvl == Level.INFO)).length := by
  refine ⟨rfl, ?_, ?_⟩ <;>
    simp [Logger.execute, Logger.info, Logger.log]

/-- Claim C6 (amended): every line emitted by the packaged Logger's `log`
(src/src/Logger/core/core.py) has the form
`<color>[<timestamp>] [<name>] [<LEVELNAME>]: <message> <args> <kwargs><reset>`,
with the color taken from the Logger's override table for the level's name,
falling back to the built-in palette; the legacy variant
(src/src/core/logger.py) instead emits `[<timestamp>] [<name>] ` followed by
the colorized message only, with no level-name field and the color wrapping
only the message. -/
theorem log_line_format (lg : Logger) (m : String) (ov : Bool) (lvl : Level)
    (args : List String) (kwargs : PyDict) (now : DateTime) (lg2 : V2.Logger) :
    (∀ x ∈ (lg.log m ov lvl args kwargs now).2,
      x.text = lg.colorFor lvl ++ "[" ++ now.strftime ++ "] [" ++ lg.name ++
        "] [" ++ lvl.lvlName ++ "]: " ++ m ++ " " ++ renderArgs args ++ " " ++
        renderKwargs kwargs ++ ansiReset)
    ∧ lg.colorFor lvl = dictGet lg.colorization lvl.lvlName (LevelColor.value lvl)
    ∧ (∀ x ∈ (lg.log m ov lvl args kwargs now).2, ∃ p, x.text = p ++ ansiReset)
    ∧ (∀ x ∈ V2.Logger.log lg2 m lvl now,
      x.text = "[" ++ now.strftime ++ "] [" ++ lg2.name ++ "] " ++
        (V2.colourisationTable lvl.lvlName).getD "" ++ m ++ ansiReset) := by
  refine ⟨?_, rfl, ?_, ?_⟩
  · intro x hx
    unfold Logger.log at hx
    split at hx <;> simp at hx
    subst hx
    rfl
  · intro x hx
    unfold Logger.log at hx
    split at hx <;> simp at hx
    subst hx
    exact ⟨_, rfl⟩
  · intro x hx
    simp [V2.Logger.log] at hx
    subst hx
    simp [V2.Logger.colourise, V2.colourisationTable, ansiReset,
      String.append_assoc]

/-- Claim C6 witness: the concrete packaged-Logger WARNING line and the
concrete legacy line at a fixed instant have the stated shapes. -/
theorem log_line_format_witness :
    (∀ x ∈ ((Logger.get_logger "Demo" Level.INFO).log "hi" false Level.WARNING
        [] [] ⟨2025, 7, 8, 12, 0, 0⟩).2,
      x.text = (Logger.get_logger "Demo" Level.INFO).colorFor Level.WARNING ++
        "[" ++ DateTime.strftime ⟨2025, 7, 8, 12, 0, 0⟩ ++ "] [" ++
        (Logger.get_logger "Demo" Level.INFO).name ++ "] [" ++
        Level.WARNING.lvlName ++ "]: " ++ "hi" ++ " " ++ renderArgs [] ++ " " ++
        renderKwargs [] ++ ansiReset)
    ∧ (Logger.get_logger "Demo" Level.INFO).colorFor Level.WARNING
      = dictGet (Logger.get_logger "Demo" Level.INFO).colorization
          Level.WARNING.lvlName (LevelColor.value Level.WARNING)
    ∧ (∀ x ∈ ((Logger.get_logger "Demo" Level.INFO).log "hi" false Level.WARNING
        [] [] ⟨2025, 7, 8, 12, 0, 0⟩).2, ∃ p, x.text = p ++ ansiReset)
    ∧ (∀ x ∈ V2.Logger.log { level := Level.INFO, name := "Demo" } "hi"
        Level.WARNING ⟨2025, 7, 8, 12, 0, 0⟩,
      x.text = "[" ++ DateTime.strftime ⟨2025, 7, 8, 12, 0, 0⟩ ++ "] [" ++
        (V2.Logger.mk Level.INFO "Demo").name ++ "] " ++
        (V2.colourisationTable Level.WARNING.lvlName).getD "" ++ "hi" ++ ansiReset) :=
  log_line_format (Logger.get_logger "Demo" Level.INFO) "hi" false
    Level.WARNING [] [] ⟨2025, 7, 8, 12, 0, 0⟩ { level := Level.INFO, name := "Demo" }

/-- Claim C6 counterexample: the claim as stated fails on the legacy
variant's `log` (src/src/core/logger.py, also cited by the claim): at level
INFO the emitted line is `[2025-07-08 12:00:00] [Demo] \x1b[94mhi\x1b[0m`,
which does not contain the `] [INFO]: ` fragment that every line of the
claimed form carries, and which does not begin with the ANSI color. -/
theorem log_line_format_counterexample :
    (V2.Logger.log { level := Level.INFO, name := "Demo" } "hi" Level.INFO
        ⟨2025, 7, 8, 12, 0, 0⟩).map LogLine.text
      = ["[2025-07-08 12:00:00] [Demo] \x1b[94mhi\x1b[0m"]
    ∧ ¬ strContains "[2025-07-08 12:00:00] [Demo] \x1b[94mhi\x1b[0m"
        ("] [" ++ Level.INFO.lvlName ++ "]: ") := by
  refine ⟨by decide, fun h => ?_⟩
  have h2 := strContains_infix _ _ h
  revert h2
  decide

/-- Claim C7: the name set at construction cannot be changed afterward: on
the packaged Logger, `name` is a read-only property and assignment raises
AttributeError; on the legacy variant the explicit setter raises
AttributeError after logging a critical message.  In both cases the Logger
keeps its original name. -/
theorem name_is_immutable (lg : Logger) (v : String) (lg2 : V2.Logger)
    (v2 : String) (now : DateTime) :
    (lg.setNameAttr v).1 = lg
    ∧ (∃ err, (lg.setNameAttr v).2 = Except.error err)
    ∧ (V2.Logger.setName lg2 v2 now).1 = lg2
    ∧ (V2.Logger.setName lg2 v2 now).1.name = lg2.name
    ∧ (∃ err, (V2.Logger.setName lg2 v2 now).2.2 = Except.error err) :=
  ⟨rfl, ⟨_, rfl⟩, rfl, rfl, ⟨_, rfl⟩⟩

/-- Claim C8: two Loggers compare equal iff their names and levels agree,
and a Logger never compares equal to a non-Logger value. -/
theorem logger_equality (a b : Logger) (n : Int) (s : String) (lvl : Level)
    (d : PyDict) :
    (a.eqPy (PyValue.logger b) = true ↔ a.name = b.name ∧ a.level = b.level)
    ∧ a.eqPy (PyValue.pyInt n) = false
    ∧ a.eqPy (PyValue.pyStr s) = false
    ∧ a.eqPy (PyValue.pyLevel lvl) = false
    ∧ a.eqPy (PyValue.pyDict d) = false
    ∧ a.eqPy PyValue.pyNone = false := by
  refine ⟨?_, rfl, rfl, rfl, rfl, rfl⟩
  simp [Logger.eqPy]

/-- Claim C9: the indexed lookup `logger[k]` never fails: it returns the
internal field stored under `k` (`_colorization`, `_level`, `_name`) and
`None` for every other key. -/
theorem getitem_never_fails (lg : Logger) (k : String) :
    lg.getitem "_name" = some (PyValue.pyStr lg.name)
    ∧ lg.getitem "_level" = some (PyValue.pyLevel lg.level)
    ∧ lg.getitem "_colorization" = some (PyValue.pyDict lg.colorization)
    ∧ (k ≠ "_colorization" → k ≠ "_level" → k ≠ "_name" → lg.getitem k = none) := by
  refine ⟨rfl, rfl, rfl, fun h1 h2 h3 => ?_⟩
  simp [Logger.getitem, h1, h2, h3]

/-- Claim C9 witness: looking up the unknown key `"name"` (the instance
dict stores `_name`, not `name`) yields `None` rather than failing. -/
theorem getitem_never_fails_witness :
    (Logger.get_logger "Demo" Level.INFO).getitem "name" = none :=
  (getitem_never_fails (Logger.get_logger "Demo" Level.INFO) "name").2.2.2
    (by decide) (by decide) (by decide)

/-- Claim C10: the colorization setter takes only keyword arguments, so the
property assignment `logger.colorization = value` always fails with a
TypeError, the Logger is unchanged, and a freshly constructed Logger's
color-override table is empty — so overrides can never be installed through
the documented assignment. -/
theorem colorization_assignment_always_fails (lg : Logger) (v : PyDict)
    (n : String) (lvl : Level) :
    (lg.colorizationAssign v).1 = lg
    ∧ (∃ err, (lg.colorizationAssign v).2 = Except.error err)
    ∧ (Logger.get_logger n lvl).colorization = [] :=
  ⟨rfl, ⟨_, rfl⟩, rfl⟩
